import Mathlib

/-!
Verification of the gateway layer of `src/app.py` (rate governor, usage
tracker, request executor, credential resolver, duplicate guard, large-media
upload orchestrator).  Python module-level mutable state (`SETTINGS`) becomes
an explicit `Settings` record threaded through the functions; wall-clock time
is an explicit parameter (`ℚ` where the source uses `time.time()` floats,
truncated with `Int.floor` where the source applies `int(...)`); the HTTP
transport becomes a list of stubbed transport results consumed one per
attempt.  Each definition is translated from the correspondingly named
function of the source.
-/

/-- Association-list lookup on string keys (models Python `dict` reads). -/
def alLookup {α : Type} (l : List (String × α)) (k : String) : Option α :=
  match l with
  | [] => none
  | p :: rest => if p.1 = k then some p.2 else alLookup rest k

/-- Association-list insert/overwrite (models Python `dict.__setitem__`:
an existing key is updated in place, a new key is appended). -/
def alInsert (l : List (String × String)) (k v : String) : List (String × String) :=
  if (alLookup l k).isSome then
    l.map (fun p => if p.1 = k then (k, v) else p)
  else l ++ [(k, v)]

/-- Python `str.strip()`: whitespace removed from both ends (implemented on
the character list so that it evaluates by kernel reduction). -/
def pyStrip (s : String) : String :=
  String.mk (((s.toList.dropWhile Char.isWhitespace).reverse.dropWhile
    Char.isWhitespace).reverse)

/-- Python `str.startswith(p)` (implemented on the character lists so that
it evaluates by kernel reduction). -/
def pyStarts (s p : String) : Bool :=
  p.toList.isPrefixOf s.toList

/-- Python `int(s)` on a string: optional sign after stripping whitespace,
then decimal digits; `none` models a raised `ValueError`. -/
def pyInt? (s : String) : Option ℤ :=
  let t := (pyStrip s).toList
  let core : List Char × ℤ :=
    match t with
    | c :: rest => if c = '-' then (rest, -1) else if c = '+' then (rest, 1) else (t, 1)
    | [] => (t, 1)
  if core.1 ≠ [] ∧ core.1.all Char.isDigit then
    some (core.2 * (core.1.foldl (fun n c => n * 10 + (c.toNat - 48)) 0 : ℤ))
  else none

/-- Parsed shape of a single response-header value as the usage tracker sees
it: `jsonUsage c t cp` stands for a header string that `json.loads` turns
into an object whose `call_count` / `total_time` / `total_cputime` fields
(defaulting to 0) convert to the given integers; `raw s` stands for any
other header string (on which that parse raises). -/
inductive HVal
  | jsonUsage (call_count total_time total_cputime : ℤ)
  | raw (s : String)
deriving DecidableEq

/-- Python truthiness of a header value: only the empty string is falsy
among the values we model. -/
def hvalTruthy : HVal → Bool
  | .raw "" => false
  | _ => true

/-- Timestamp of a submission recorded by the duplicate guard
(one element of `SETTINGS["_recent_posts"]`). -/
structure RecentPost where
  ts : ℤ
  type : String
  key : String
  content_hash : String
deriving DecidableEq

/-- The throttle sub-dictionary of `SETTINGS` (`"throttle"` key). -/
structure Throttle where
  global_min_interval : ℚ
  per_page_min_interval : ℚ
deriving DecidableEq

/-- The mutable process-wide state of the module: the fields of the Python
`SETTINGS` dictionary that the gateway functions read and write. -/
structure Settings where
  cooldown_until : ℤ
  last_usage : Option HVal × Option HVal
  throttle : Throttle
  last_call_ts : List (String × ℚ)
  recent_posts : List RecentPost
deriving DecidableEq

/-- Read of `SETTINGS["last_call_ts"].get(key, 0.0)`. -/
def tsGet (m : List (String × ℚ)) (k : String) : ℚ :=
  (alLookup m k).getD 0

/-- Write of `SETTINGS["last_call_ts"][key] = v` (prepend; `alLookup` reads
the most recent binding first, so this models in-place dictionary update). -/
def tsSet (m : List (String × ℚ)) (k : String) (v : ℚ) : List (String × ℚ) :=
  (k, v) :: m

/-- Gap selected by `_wait_throttle` for a context key: the per-page
interval for `"page:"`-prefixed keys, the global interval otherwise. -/
def gapOf (s : Settings) (k : String) : ℚ :=
  if pyStarts k "page:" then s.throttle.per_page_min_interval
  else s.throttle.global_min_interval

/-- Translation of `_wait_throttle(key)`.  `now` is the entry time; the
returned rational is the time at which the call is issued (entry time plus
the sleep), and both `key` and `"global"` timestamps are stamped with it.
The source stamps with two fresh `time.time()` reads immediately after the
sleep; the model uses the single post-sleep instant for both. -/
def wait_throttle (s : Settings) (key : String) (now : ℚ) : Settings × ℚ :=
  let last_ts := tsGet s.last_call_ts key
  let gap := gapOf s key
  let g_last := tsGet s.last_call_ts "global"
  let g_gap := s.throttle.global_min_interval
  let sleep_for := max 0 (max (last_ts + gap - now) (g_last + g_gap - now))
  let t := now + sleep_for
  ({ s with last_call_ts := tsSet (tsSet s.last_call_ts key t) "global" t }, t)

/-- Sequential execution of `_wait_throttle` for a list of
(context key, arrival time) requests, collecting the issue times. -/
def runList (s : Settings) : List (String × ℚ) → Settings × List ℚ
  | [] => (s, [])
  | r :: rest =>
    let p := wait_throttle s r.1 r.2
    let q := runList p.1 rest
    (q.1, p.2 :: q.2)



/-- Translation of `_hash_content`: the source computes the sha256 hex digest
of the stripped content; the model keeps the trimmed string itself, an
injective stand-in for the digest. -/
def hash_content (s : String) : String := pyStrip s

/-- Translation of `_recent_content_guard(kind, key, content, within_sec)`.
`posts` is `SETTINGS["_recent_posts"]` at entry; the result pairs the boolean
verdict with its value after the call (pruned, plus the new record when the
verdict is `false`). -/
def recent_content_guard (posts : List RecentPost) (kind key content : String)
    (within_sec : ℤ) (now : ℤ) : Bool × List RecentPost :=
  let h := hash_content content
  let pruned := posts.filter (fun x => decide (now - x.ts ≤ within_sec))
  if pruned.any (fun x => decide (x.type = kind ∧ x.key = key ∧ x.content_hash = h)) then
    (true, pruned)
  else
    (false, pruned ++ [⟨now, kind, key, h⟩])

/-- Header key variants scanned by `_update_usage_and_cooldown`. -/
def usageKeys : List String :=
  ["x-app-usage", "X-App-Usage", "x-page-usage", "X-Page-Usage"]

/-- Effect of one parsed usage header on the cooldown deadline (the body of
the per-key `try` block of `_update_usage_and_cooldown`); a `raw` value is a
string whose parse raises, swallowed by the inner `except`. -/
def apply_usage (now : ℤ) (cu : ℤ) (v : HVal) : ℤ :=
  match v with
  | .jsonUsage c t cp =>
    let top := max c (max t cp)
    if 90 ≤ top then max cu (now + 300)
    else if 80 ≤ top then max cu (now + 120)
    else cu
  | .raw _ => cu

/-- Python `a or b` over the two header reads that populate
`SETTINGS["last_usage"]` (`hdr.get(k1) or hdr.get(k2) or ""`; `none` stands
for the final `""`). -/
def firstTruthy (a b : Option HVal) : Option HVal :=
  match a with
  | some v =>
    if hvalTruthy v then some v
    else match b with
      | some w => if hvalTruthy w then some w else none
      | none => none
  | none =>
    match b with
    | some w => if hvalTruthy w then some w else none
    | none => none

/-- Translation of `_update_usage_and_cooldown(r)`: stores the latest usage
header values and raises the cooldown deadline according to each usage
header present, scanning the four key variants in order. -/
def update_usage_and_cooldown (s : Settings) (hdr : List (String × HVal)) (now : ℤ) :
    Settings :=
  let usage := firstTruthy (alLookup hdr "x-app-usage") (alLookup hdr "X-App-Usage")
  let pusage := firstTruthy (alLookup hdr "x-page-usage") (alLookup hdr "X-Page-Usage")
  let cu := usageKeys.foldl (fun cu k =>
    match alLookup hdr k with
    | some v => apply_usage now cu v
    | none => cu) s.cooldown_until
  { s with cooldown_until := cu, last_usage := (usage, pusage) }

/-- Translation of `_respect_cooldown()`: remaining cooldown seconds, zero
when the deadline has passed. -/
def respect_cooldown (cooldown_until : ℤ) (now : ℤ) : ℤ :=
  if now < cooldown_until then cooldown_until - now else 0

/-- Translation of `int(r.headers.get("Retry-After", "0") or "0")` with the
surrounding `try/except`: an absent header reads as `"0"` (hence 0), an
empty string falls back to `"0"`, an unparsable value raises and the
`except` branch substitutes 300. -/
def parse_retry_after (v : Option HVal) : ℤ :=
  match v with
  | none => 0
  | some (.raw s) => if s = "" then 0 else (pyInt? s).getD 300
  | some (.jsonUsage _ _ _) => 300

/-- Outcome of `_handle_429_and_maybe_retry`: the retry signal `(None, -1)`
after sleeping for the given seconds, a raised `ValueError` when the sleep
duration `ra or 1` is negative (`time.sleep` rejects negative arguments and
nothing catches the error), or the structured `RATE_LIMIT` body with
status 429. -/
inductive H429Out
  | retryAfterSleep (sleep : ℤ)
  | sleepValueError
  | limit (retry_after : ℤ)
deriving DecidableEq

/-- Translation of `_handle_429_and_maybe_retry(r, attempt)`.  Returns the
outcome together with the updated `cooldown_until` (the source mutates
`SETTINGS` in place before branching, so the cooldown is extended even on
the `ValueError` path). -/
def handle_429 (retryAfterVal : Option HVal) (attempt : ℕ) (now cu : ℤ) :
    H429Out × ℤ :=
  let ra := parse_retry_after retryAfterVal
  let cu' := max cu (now + max ra 120)
  if attempt = 0 ∧ ra ≤ 5 then
    let sl := if ra = 0 then 1 else ra
    if sl < 0 then (.sleepValueError, cu')
    else (.retryAfterSleep sl, cu')
  else (.limit ra, cu')

/-- Parse status of an upstream response body: `json d` when `r.json()`
succeeds with the flat string dictionary `d` (the shape every endpoint used
here returns), `unparsable t` when it raises, carrying `r.text`. -/
inductive BodyParse
  | json (d : List (String × String))
  | unparsable (text : String)
deriving DecidableEq

/-- An HTTP response as the executor observes it. -/
structure Resp where
  status : ℤ
  headers : List (String × HVal)
  body : BodyParse
deriving DecidableEq

/-- One stubbed transport exchange: a response, or a raised
`requests.RequestException` carrying `str(e)`. -/
inductive TResult
  | resp (r : Resp)
  | exn (msg : String)
deriving DecidableEq

/-- Value returned by an executor (the Python dict of the `return`
statements): the structured `RATE_LIMIT` body, a parsed upstream dictionary,
or the error-text envelope used both for unparsable bodies and for
transport failures.  `uncaught msg` is not a return value: it marks an
exception that escapes the executor to its caller (the `ValueError` raised
by `time.sleep` on a negative retry hint, which the
`except requests.RequestException` clause does not catch). -/
inductive GBody
  | rateLimit (retry_after : ℤ)
  | dict (d : List (String × String))
  | errText (s : String)
  | uncaught (msg : String)
deriving DecidableEq

/-- Record of one network exchange: the time it is issued and the value of
`cooldown_until` at that moment. -/
structure AttemptEv where
  time : ℚ
  cu_at : ℤ
deriving DecidableEq

/-- Result of one iteration of an executor's `while` loop: a final return
value, the retry signal with the state and clock after the handler's sleep,
or an exception escaping the loop (with the mutated state and the clock at
the raise). -/
inductive StepOut
  | done (body : GBody) (status : ℤ) (s : Settings) (now : ℚ)
  | retryStep (s : Settings) (now : ℚ)
  | raised (msg : String) (s : Settings) (now : ℚ)

/-- Final value of an executor call: body, status, final state and clock,
and the trace of network exchanges performed. -/
structure ExecOut where
  body : GBody
  status : ℤ
  s : Settings
  now : ℚ
  trace : List AttemptEv

/-- The two throttle calls at the top of each executor loop iteration:
`_wait_throttle("global")` then `_wait_throttle(ctx_key)` when a context key
is given. -/
def throttle_pair (s : Settings) (now : ℚ) (ctx : Option String) : Settings × ℚ :=
  let p := wait_throttle s "global" now
  match ctx with
  | none => p
  | some k => wait_throttle p.1 k p.2

/-- Body of one executor loop iteration after the throttling, given the
stubbed transport result for this attempt.  `s1` and `t` are the state and
clock when the exchange is issued. -/
def attempt_step (s1 : Settings) (t : ℚ) (tr : TResult) (attempt : ℕ) : StepOut :=
  match tr with
  | .exn m => .done (.errText m) 500 s1 t
  | .resp r =>
    let s2 := update_usage_and_cooldown s1 r.headers (Int.floor t)
    if r.status = 429 then
      match handle_429 (alLookup r.headers "Retry-After") attempt (Int.floor t)
          s2.cooldown_until with
      | (.retryAfterSleep sl, cu') =>
        .retryStep { s2 with cooldown_until := cu' } (t + (sl : ℚ))
      | (.sleepValueError, cu') =>
        .raised "ValueError: sleep length must be non-negative"
          { s2 with cooldown_until := cu' } t
      | (.limit ra, cu') =>
        .done (.rateLimit ra) 429 { s2 with cooldown_until := cu' } t
    else if 400 ≤ r.status then
      match r.body with
      | .json d => .done (.dict d) r.status s2 t
      | .unparsable txt => .done (.errText txt) r.status s2 t
    else
      match r.body with
      | .json d => .done (.dict d) 200 s2 t
      | .unparsable txt => .done (.errText txt) 500 s2 t

/-- One full loop iteration: throttle, then exchange; also returns the
trace record of the exchange. -/
def do_attempt (s : Settings) (now : ℚ) (ctx : Option String) (tr : TResult)
    (attempt : ℕ) : AttemptEv × StepOut :=
  let p := throttle_pair s now ctx
  (⟨p.2, p.1.cooldown_until⟩, attempt_step p.1 p.2 tr attempt)

/-- Second (and last possible) loop iteration after a retry signal.  With
`attempt = 1` the 429 handler never signals a retry again, so the
`retryStep` branch is unreachable; it is mapped to an arbitrary error. -/
def run_second (s1 : Settings) (n1 : ℚ) (ctx : Option String) (tr : TResult)
    (ev0 : AttemptEv) : ExecOut :=
  let a1 := do_attempt s1 n1 ctx tr 1
  match a1.2 with
  | .done b st s n => ⟨b, st, s, n, [ev0, a1.1]⟩
  | .retryStep s2 n2 => ⟨.errText "unreachable", 500, s2, n2, [ev0, a1.1]⟩
  | .raised m s n => ⟨.uncaught m, 0, s, n, [ev0, a1.1]⟩

/-- Shared translation of `graph_get` / `graph_post` / `graph_post_multipart`
(the three differ only in HTTP encoding and timeout, both absorbed by the
transport stub): cooldown gate, then the bounded retry loop, unrolled to its
two possible iterations.  `transport` supplies one stubbed exchange per
attempt; a missing entry models a raised connection error.  A `raised` step
(the uncatchable `ValueError` of a negative retry sleep) yields a result
whose body is the `uncaught` marker — nothing is returned to the Python
caller there, the exception propagates; the paired status is set to 0 and
carries no meaning. -/
def graph_exec (s0 : Settings) (now0 : ℚ) (ctx : Option String)
    (transport : List TResult) : ExecOut :=
  let rem := respect_cooldown s0.cooldown_until (Int.floor now0)
  if 0 < rem then ⟨.rateLimit rem, 429, s0, now0, []⟩
  else
    let a0 := do_attempt s0 now0 ctx (transport.getD 0 (.exn "connection error")) 0
    match a0.2 with
    | .done b st s n => ⟨b, st, s, n, [a0.1]⟩
    | .retryStep s1 n1 =>
      run_second s1 n1 ctx (transport.getD 1 (.exn "connection error")) a0.1
    | .raised m s n => ⟨.uncaught m, 0, s, n, [a0.1]⟩

/-- Translation of `graph_get(path, params, token, ttl, ctx_key)`; path,
query parameters and bearer token only shape the HTTP exchange, which the
transport stub absorbs. -/
def graph_get (s0 : Settings) (now0 : ℚ) (ctx : Option String)
    (transport : List TResult) : ExecOut :=
  graph_exec s0 now0 ctx transport

/-- Translation of `graph_post(path, data, token, ctx_key)`. -/
def graph_post (s0 : Settings) (now0 : ℚ) (ctx : Option String)
    (transport : List TResult) : ExecOut :=
  graph_exec s0 now0 ctx transport

/-- Translation of `graph_post_multipart(path, files, form, token, ctx_key)`. -/
def graph_post_multipart (s0 : Settings) (now0 : ℚ) (ctx : Option String)
    (transport : List TResult) : ExecOut :=
  graph_exec s0 now0 ctx transport

/-- Whitespace skipping for the JSON fragment parser. -/
def skipWs : List Char → List Char
  | [] => []
  | c :: rest =>
    if c = ' ' ∨ c = '\t' ∨ c = '\n' ∨ c = '\r' then skipWs rest else c :: rest

/-- JSON string contents up to the closing quote (escaped characters taken
literally, which covers the quote and backslash escapes). -/
def jstrChars : ℕ → List Char → Option (List Char × List Char)
  | 0, _ => none
  | _, [] => none
  | fuel + 1, c :: rest =>
    if c = Char.ofNat 34 then some ([], rest)
    else if c = Char.ofNat 92 then
      match rest with
      | [] => none
      | e :: rest2 => (jstrChars fuel rest2).map (fun p => (e :: p.1, p.2))
    else (jstrChars fuel rest).map (fun p => (c :: p.1, p.2))

/-- Comma-separated `"key": "value"` pairs of a JSON object, ending at the
closing brace. -/
def jsonPairs : ℕ → List Char → Option (List (String × String) × List Char)
  | 0, _ => none
  | fuel + 1, cs =>
    match skipWs cs with
    | [] => none
    | c :: rest =>
      if c = Char.ofNat 34 then
        match jstrChars (fuel + 1) rest with
        | none => none
        | some (kcs, rest2) =>
          match skipWs rest2 with
          | [] => none
          | d :: rest3 =>
            if d = ':' then
              match skipWs rest3 with
              | [] => none
              | e :: rest4 =>
                if e = Char.ofNat 34 then
                  match jstrChars (fuel + 1) rest4 with
                  | none => none
                  | some (vcs, rest5) =>
                    match skipWs rest5 with
                    | [] => none
                    | f :: rest6 =>
                      if f = ',' then
                        (jsonPairs fuel rest6).map
                          (fun p => ((String.mk kcs, String.mk vcs) :: p.1, p.2))
                      else if f = Char.ofNat 125 then
                        some ([(String.mk kcs, String.mk vcs)], rest6)
                      else none
                else none
            else none
      else none

/-- Model of `json.loads` restricted to the fragment `_env_get_tokens`
consumes: a flat JSON object whose keys and values are strings.  `none`
models a raised `json.JSONDecodeError` (or JSON outside this fragment). -/
def jsonFlatObj? (s : String) : Option (List (String × String)) :=
  match skipWs s.toList with
  | [] => none
  | c :: rest =>
    if c = Char.ofNat 123 then
      match skipWs rest with
      | [] => none
      | d :: rest2 =>
        if d = Char.ofNat 125 then
          if skipWs rest2 = [] then some [] else none
        else
          match jsonPairs (s.length + 1) (d :: rest2) with
          | some (items, rest3) => if skipWs rest3 = [] then some items else none
          | none => none
    else none

/-- A Python runtime error escaping a gateway function. -/
inductive PyErr
  | nameError (n : String)
deriving DecidableEq

/-- Translation of `_env_get_tokens()`, taking the raw `PAGE_TOKENS`
environment string.  The module never imports `re`, so every control path
that reaches the `re.split` line (any non-empty input that is not a
successfully parsed JSON object, including the whole delimiter-separated
and loose-token syntax) raises `NameError: name 're' is not defined`,
modelled as `.error`.  The JSON branch is modelled only on the flat
object-of-strings fragment: a JSON object with non-string values (which the
source would coerce via `str(v)` and return as a mapping) is outside the
model, and no theorem exercises that branch. -/
def env_get_tokens (raw0 : String) :
    Except PyErr (List (String × String) × List String) :=
  let raw := pyStrip raw0
  if raw = "" then .ok ([], [])
  else if pyStarts raw "\x7b" then
    match jsonFlatObj? raw with
    | some items =>
      .ok (items.foldl (fun m kv =>
        if kv.1 ≠ "" ∧ kv.2 ≠ "" then alInsert m kv.1 kv.2 else m) [], [])
    | none => .error (.nameError "re")
  else .error (.nameError "re")

/-- One element of the `data` list of a `me/accounts` response: `id` is the
result of `p.get("id")` (`none` when absent, in which case `str(None)`
yields the string `"None"`), `access_token` that of `p.get("access_token")`. -/
structure AccountEntry where
  id : Option String
  access_token : Option String
deriving DecidableEq

/-- Parsed shape of the `me/accounts` reply body used by
`get_page_access_token`: a dict whose `data` entry holds the account list
(`data.get("data", [])`), or a non-dict body. -/
inductive MAData
  | dict (dataEntries : List AccountEntry)
  | nondict
deriving DecidableEq

/-- The `found` dictionary built from a `me/accounts` reply: each entry with
a truthy `str(p.get("id"))` and truthy `access_token` is inserted. -/
def build_found (entries : List AccountEntry) : List (String × String) :=
  entries.foldl (fun acc e =>
    let pid := match e.id with
      | some s => s
      | none => "None"
    match e.access_token with
    | some pat => if pid ≠ "" ∧ pat ≠ "" then alInsert acc pid pat else acc
    | none => acc) []

/-- Translation of `get_page_access_token(page_id, user_token)`.  `mp` is the
mapping returned by `_env_get_tokens()`, `store_pages` the `"pages"` entry of
the persisted token store, and `(ma_status, ma_data)` the outcome of the
`graph_get("me/accounts", ...)` call.  Returns the resolved credential (or
`none`), the `"pages"` map after the call, and whether `save_tokens` ran. -/
def get_page_access_token (mp : List (String × String))
    (store_pages : List (String × String)) (ma_status : ℤ) (ma_data : MAData)
    (page_id : String) : Option String × List (String × String) × Bool :=
  match alLookup mp page_id with
  | some t => (some t, store_pages, false)
  | none =>
    match alLookup store_pages page_id with
    | some t => (some t, store_pages, false)
    | none =>
      if ma_status = 200 then
        match ma_data with
        | .dict entries =>
          let found := build_found entries
          if found ≠ [] then (alLookup found page_id, found, true)
          else (alLookup found page_id, store_pages, false)
        | .nondict => (none, store_pages, false)
      else (none, store_pages, false)

/-- Resolution entered from the raw `PAGE_TOKENS` value: the first line of
`get_page_access_token` calls `_env_get_tokens()` unguarded, so its
`NameError` propagates to the caller. -/
def get_page_access_token_env (page_tokens_raw : String)
    (store_pages : List (String × String)) (ma_status : ℤ) (ma_data : MAData)
    (page_id : String) :
    Except PyErr (Option String × List (String × String) × Bool) :=
  match env_get_tokens page_tokens_raw with
  | .error e => .error e
  | .ok mpLoose =>
    .ok (get_page_access_token mpLoose.1 store_pages ma_status ma_data page_id)

/-- Scan of the loose-credential identity lookups: each pair is the owner id
learned from the `me` call on that credential (`none` on lookup failure)
together with the credential. -/
def looseFind (l : List (Option String × String)) (pid : String) : Option String :=
  match l with
  | [] => none
  | (some i, tok) :: rest => if i = pid then some tok else looseFind rest pid
  | (none, _) :: rest => looseFind rest pid

/-- Modelled from the spec: the four-step credential resolution the spec
describes for `resolve` — environment map, persisted store, live
`me/accounts` discovery, then identity lookups on loose environment
credentials — returning the first hit.  The fourth step does not exist in
`get_page_access_token`; this definition exists to compare the source
against the spec's claim. -/
def resolve_spec (mp : List (String × String))
    (store_pages : List (String × String)) (ma_status : ℤ) (ma_data : MAData)
    (looseLookups : List (Option String × String)) (page_id : String) :
    Option String :=
  match alLookup mp page_id with
  | some t => some t
  | none =>
    match alLookup store_pages page_id with
    | some t => some t
    | none =>
      let disc :=
        if ma_status = 200 then
          match ma_data with
          | .dict entries => alLookup (build_found entries) page_id
          | .nondict => none
        else none
      match disc with
      | some t => some t
      | none => looseFind looseLookups page_id

/-- Translation of `_ctx_key_for_page`. -/
def ctx_key_for_page (page_id : String) : String := "page:" ++ page_id

/-- Body of the reel endpoint's reply (the `jsonify(...)` payloads of
`api_post_reel` from the start phase onward). -/
inductive ReelBody
  | startFailed (detail : GBody)
  | ruploadFailed (detail : BodyParse)
  | ruploadException (msg : String)
  | finishFailed (detail : GBody)
  | ok (b : GBody)
deriving DecidableEq

/-- Result of the reel upload orchestration: reply body and status, whether
the binary transfer and the finish call were issued, and the final state and
clock. -/
structure ReelOut where
  body : ReelBody
  status : ℤ
  ruploadCalled : Bool
  finishCalled : Bool
  s : Settings
  now : ℚ

/-- The `video_id` field of a start-phase reply (`"video_id" in start_res`
requires the reply to be a dict containing the key). -/
def reelVid (b : GBody) : Option String :=
  match b with
  | .dict d => alLookup d "video_id"
  | _ => none

/-- Translation of `api_post_reel(page_id)` from the `reels_start` call
onward (the session/token/file gates before it return without touching the
gateway).  `startT` and `finT` stub the transports of the two `graph_post`
phases (`reels_start` / `reels_finish`), `ruploadT` the raw binary transfer
to the rupload host, and `permT` the best-effort permalink `graph_get`.
The binary transfer is preceded only by `_wait_throttle("global")` — no
cooldown check — and its response is not fed to the usage tracker. -/
def api_post_reel_core (s0 : Settings) (now0 : ℚ) (page_id : String)
    (startT : List TResult) (ruploadT : TResult) (finT : List TResult)
    (permT : List TResult) : ReelOut :=
  let ctx := some (ctx_key_for_page page_id)
  let o1 := graph_post s0 now0 ctx startT
  if o1.status = 200 then
    match reelVid o1.body with
    | none => ⟨.startFailed o1.body, o1.status, false, false, o1.s, o1.now⟩
    | some _ =>
      -- the upload identifier itself only shapes the rupload URL and the
      -- finish form fields, both absorbed by the transport stubs
      let p := wait_throttle o1.s "global" o1.now
      match ruploadT with
      | .exn m => ⟨.ruploadException m, 500, true, false, p.1, p.2⟩
      | .resp r =>
        if 400 ≤ r.status then
          ⟨.ruploadFailed r.body, r.status, true, false, p.1, p.2⟩
        else
          let o3 := graph_post p.1 p.2 ctx finT
          if o3.status = 200 then
            match o3.body with
            | .dict fd =>
              -- the lookup target `fin_res.get("video_id") or video_id` only
              -- shapes the request URL, which the transport stub absorbs
              let o4 := graph_get o3.s o3.now ctx permT
              let fd' :=
                if o4.status = 200 then
                  match o4.body with
                  | .dict pd =>
                    match alLookup pd "permalink_url" with
                    | some u => if u = "" then fd else alInsert fd "permalink_url" u
                    | none => fd
                  | _ => fd
                else fd
              ⟨.ok (.dict fd'), 200, true, true, o4.s, o4.now⟩
            | b => ⟨.ok b, 200, true, true, o3.s, o3.now⟩
          else ⟨.finishFailed o3.body, o3.status, true, true, o3.s, o3.now⟩
  else ⟨.startFailed o1.body, o1.status, false, false, o1.s, o1.now⟩

/-- The module state right after startup with the default throttle
configuration (`GLOBAL_MIN_INTERVAL=1.0`, `PER_PAGE_MIN_INTERVAL=2.0`),
used as the concrete state of witness instantiations. -/
def s_base : Settings :=
  { cooldown_until := 0, last_usage := (none, none),
    throttle := { global_min_interval := 1, per_page_min_interval := 2 },
    last_call_ts := [], recent_posts := [] }

section ThrottleLemmas

theorem wait_throttle_throttle (s : Settings) (k : String) (now : ℚ) :
    (wait_throttle s k now).1.throttle = s.throttle := rfl

theorem wait_throttle_cooldown (s : Settings) (k : String) (now : ℚ) :
    (wait_throttle s k now).1.cooldown_until = s.cooldown_until := rfl

theorem wait_throttle_now_le (s : Settings) (k : String) (now : ℚ) :
    now ≤ (wait_throttle s k now).2 := by
  simp only [wait_throttle]
  have : (0 : ℚ) ≤ max 0 (max (tsGet s.last_call_ts k + gapOf s k - now)
      (tsGet s.last_call_ts "global" + s.throttle.global_min_interval - now)) :=
    le_max_left _ _
  linarith

theorem wait_throttle_ge_global (s : Settings) (k : String) (now : ℚ) :
    tsGet s.last_call_ts "global" + s.throttle.global_min_interval ≤
      (wait_throttle s k now).2 := by
  simp only [wait_throttle]
  have h1 : tsGet s.last_call_ts "global" + s.throttle.global_min_interval - now ≤
      max (tsGet s.last_call_ts k + gapOf s k - now)
        (tsGet s.last_call_ts "global" + s.throttle.global_min_interval - now) :=
    le_max_right _ _
  have h2 : max (tsGet s.last_call_ts k + gapOf s k - now)
        (tsGet s.last_call_ts "global" + s.throttle.global_min_interval - now) ≤
      max 0 (max (tsGet s.last_call_ts k + gapOf s k - now)
        (tsGet s.last_call_ts "global" + s.throttle.global_min_interval - now)) :=
    le_max_right _ _
  linarith

theorem wait_throttle_ge_key (s : Settings) (k : String) (now : ℚ) :
    tsGet s.last_call_ts k + gapOf s k ≤ (wait_throttle s k now).2 := by
  simp only [wait_throttle]
  have h1 : tsGet s.last_call_ts k + gapOf s k - now ≤
      max (tsGet s.last_call_ts k + gapOf s k - now)
        (tsGet s.last_call_ts "global" + s.throttle.global_min_interval - now) :=
    le_max_left _ _
  have h2 : max (tsGet s.last_call_ts k + gapOf s k - now)
        (tsGet s.last_call_ts "global" + s.throttle.global_min_interval - now) ≤
      max 0 (max (tsGet s.last_call_ts k + gapOf s k - now)
        (tsGet s.last_call_ts "global" + s.throttle.global_min_interval - now)) :=
    le_max_right _ _
  linarith

theorem wait_throttle_stamp_global (s : Settings) (k : String) (now : ℚ) :
    tsGet (wait_throttle s k now).1.last_call_ts "global" = (wait_throttle s k now).2 := by
  simp [wait_throttle, tsGet, tsSet, alLookup]

theorem wait_throttle_stamp_key (s : Settings) (k : String) (now : ℚ) :
    tsGet (wait_throttle s k now).1.last_call_ts k = (wait_throttle s k now).2 := by
  by_cases h : ("global" : String) = k
  · subst h; simp [wait_throttle, tsGet, tsSet, alLookup]
  · simp [wait_throttle, tsGet, tsSet, alLookup, h]

theorem wait_throttle_preserve (s : Settings) (k : String) (now : ℚ) (k' : String)
    (h1 : k' ≠ k) (h2 : k' ≠ "global") :
    tsGet (wait_throttle s k now).1.last_call_ts k' = tsGet s.last_call_ts k' := by
  simp [wait_throttle, tsGet, tsSet, alLookup, Ne.symm h1, Ne.symm h2]

theorem runList_throttle (reqs : List (String × ℚ)) : ∀ s : Settings,
    (runList s reqs).1.throttle = s.throttle := by
  induction reqs with
  | nil => intro s; rfl
  | cons r rest ih =>
    intro s
    simp only [runList]
    rw [ih, wait_throttle_throttle]

theorem runList_preserve (reqs : List (String × ℚ)) : ∀ s : Settings, ∀ k : String,
    (∀ r ∈ reqs, r.1 ≠ k) → k ≠ "global" →
    tsGet (runList s reqs).1.last_call_ts k = tsGet s.last_call_ts k := by
  induction reqs with
  | nil => intro s k _ _; rfl
  | cons r rest ih =>
    intro s k hall hg
    simp only [runList]
    rw [ih _ k (fun x hx => hall x (List.mem_cons_of_mem _ hx)) hg]
    exact wait_throttle_preserve s r.1 r.2 k
      (Ne.symm (hall r (List.mem_cons_self _ _))) hg

end ThrottleLemmas

/-- C1: for every call to a Request Executor operation (`graph_get`,
`graph_post`, `graph_post_multipart`), if at entry the remaining cooldown is
positive (`now < cooldownUntil`), the operation returns the `RATE_LIMIT`
body carrying the remaining seconds with status 429 and performs no network
exchange (empty trace, state unchanged). -/
theorem c1_cooldown_gate (s : Settings) (now : ℚ) (ctx : Option String)
    (transport : List TResult) (h : Int.floor now < s.cooldown_until) :
    graph_get s now ctx transport =
      ⟨.rateLimit (s.cooldown_until - Int.floor now), 429, s, now, []⟩
    ∧ graph_post s now ctx transport =
      ⟨.rateLimit (s.cooldown_until - Int.floor now), 429, s, now, []⟩
    ∧ graph_post_multipart s now ctx transport =
      ⟨.rateLimit (s.cooldown_until - Int.floor now), 429, s, now, []⟩ := by
  have hrem : respect_cooldown s.cooldown_until (Int.floor now) =
      s.cooldown_until - Int.floor now := by
    simp [respect_cooldown, h]
  have hpos : 0 < s.cooldown_until - Int.floor now := sub_pos.mpr h
  refine ⟨?_, ?_, ?_⟩ <;>
    simp [graph_get, graph_post, graph_post_multipart, graph_exec, hrem, hpos]

/-- Witness for C1 at a concrete input: cooldown deadline 2000, clock 1000. -/
theorem c1_cooldown_gate_witness :
    Int.floor (1000 : ℚ) < ({ s_base with cooldown_until := 2000 } : Settings).cooldown_until
    ∧ graph_get { s_base with cooldown_until := 2000 } 1000 none
        [.resp ⟨200, [], .json []⟩] =
      ⟨.rateLimit (({ s_base with cooldown_until := 2000 } : Settings).cooldown_until -
          Int.floor (1000 : ℚ)), 429, { s_base with cooldown_until := 2000 }, 1000, []⟩ :=
  ⟨by decide, (c1_cooldown_gate { s_base with cooldown_until := 2000 } 1000 none
    [.resp ⟨200, [], .json []⟩] (by decide)).1⟩

/-- C10: `_env_get_tokens` reaches `re.split` for every non-empty
`PAGE_TOKENS` value that is not a successfully parsed JSON object — in
particular for delimiter-separated text — and the module never imports
`re`, so a `NameError` escapes, propagating through the unguarded call at
the top of `get_page_access_token`; the code therefore violates the claim's
totality property at such inputs. -/
theorem c10_name_error_escape :
    env_get_tokens "123|tok" = .error (.nameError "re")
    ∧ get_page_access_token_env "123|tok" [] 500 .nondict "123" =
        .error (.nameError "re")
    ∧ env_get_tokens "tokA,tokB" = .error (.nameError "re") :=
  ⟨rfl, rfl, rfl⟩

/-- C7: from a fresh log, the first `isDuplicate` call records the trimmed
content's fingerprint and returns false; a second call with identical
trimmed content and the same (kind, resourceKey) within the window returns
true without recording again; a call after the window has elapsed returns
false again; identical content under a different kind is not flagged. -/
theorem c7_duplicate_guard (kind kind2 key c c2 : String) (w t1 t2 t3 t4 : ℤ)
    (hc : pyStrip c2 = pyStrip c) (h12 : t2 - t1 ≤ w) (h13 : w < t3 - t1)
    (h14 : t4 - t1 ≤ w) (hk : kind2 ≠ kind) :
    (recent_content_guard [] kind key c w t1).1 = false
    ∧ (recent_content_guard [] kind key c w t1).2 =
        [⟨t1, kind, key, hash_content c⟩]
    ∧ (recent_content_guard [⟨t1, kind, key, hash_content c⟩] kind key c2 w t2).1 = true
    ∧ (recent_content_guard [⟨t1, kind, key, hash_content c⟩] kind key c2 w t2).2 =
        [⟨t1, kind, key, hash_content c⟩]
    ∧ (recent_content_guard [⟨t1, kind, key, hash_content c⟩] kind key c w t3).1 = false
    ∧ (recent_content_guard [⟨t1, kind, key, hash_content c⟩] kind2 key c2 w t4).1 = false := by
  have h12' : t2 ≤ w + t1 := by omega
  have h13' : ¬ t3 ≤ w + t1 := by omega
  have h14' : t4 ≤ w + t1 := by omega
  refine ⟨?_, ?_, ?_, ?_, ?_, ?_⟩ <;>
    simp [recent_content_guard, hash_content, hc, h12', h13', h14', Ne.symm hk]

/-- Witness for C7 at concrete inputs: the spec's scenario with kind
`"post"`, key `"page123"`, content `"Hello world"`, window 3600 s. -/
theorem c7_duplicate_guard_witness :
    pyStrip " Hello world " = pyStrip "Hello world"
    ∧ ((10 : ℤ) - 0 ≤ 3600) ∧ ((3600 : ℤ) < 3601 - 0) ∧ ((10 : ℤ) - 0 ≤ 3600)
    ∧ ("photo" : String) ≠ "post"
    ∧ (recent_content_guard [] "post" "page123" "Hello world" 3600 0).1 = false
    ∧ (recent_content_guard [⟨0, "post", "page123", hash_content "Hello world"⟩]
        "post" "page123" " Hello world " 3600 10).1 = true
    ∧ (recent_content_guard [⟨0, "post", "page123", hash_content "Hello world"⟩]
        "post" "page123" "Hello world" 3600 3601).1 = false
    ∧ (recent_content_guard [⟨0, "post", "page123", hash_content "Hello world"⟩]
        "photo" "page123" " Hello world " 3600 10).1 = false := by
  have h := c7_duplicate_guard "post" "photo" "page123" "Hello world" " Hello world "
    3600 0 10 3601 10 (by decide) (by decide) (by decide) (by decide) (by decide)
  exact ⟨by decide, by decide, by decide, by decide, by decide,
    h.1, h.2.2.1, h.2.2.2.2.1, h.2.2.2.2.2⟩

theorem apply_usage_mono (now cu : ℤ) (v : HVal) : cu ≤ apply_usage now cu v := by
  rcases v with ⟨c, t, cp⟩ | s
  · simp only [apply_usage]
    split
    · exact le_max_left _ _
    · split
      · exact le_max_left _ _
      · exact le_refl _
  · exact le_refl _

theorem foldl_usage_mono (hdr : List (String × HVal)) (now : ℤ) (keys : List String) :
    ∀ cu : ℤ, cu ≤ keys.foldl (fun cu k =>
      match alLookup hdr k with
      | some v => apply_usage now cu v
      | none => cu) cu := by
  induction keys with
  | nil => intro cu; exact le_refl _
  | cons k rest ih =>
    intro cu
    refine le_trans ?_ (ih _)
    rcases hv : alLookup hdr k with _ | v
    · simp [hv]
    · simp only [List.foldl_cons, hv]
      exact apply_usage_mono now cu v

theorem foldl_usage_noop (hdr : List (String × HVal)) (now : ℤ) (keys : List String)
    (h : ∀ k ∈ keys, ∀ c t cp, alLookup hdr k ≠ some (.jsonUsage c t cp)) :
    ∀ cu : ℤ, keys.foldl (fun cu k =>
      match alLookup hdr k with
      | some v => apply_usage now cu v
      | none => cu) cu = cu := by
  induction keys with
  | nil => intro cu; rfl
  | cons k rest ih =>
    intro cu
    have hstep : (match alLookup hdr k with
        | some v => apply_usage now cu v
        | none => cu) = cu := by
      cases hv : alLookup hdr k with
      | none => rfl
      | some v =>
        rcases v with ⟨c, t, cp⟩ | str
        · exact absurd hv (h k (List.mem_cons_self _ _) c t cp)
        · rfl
    simp only [List.foldl_cons, hstep]
    exact ih (fun x hx => h x (List.mem_cons_of_mem _ hx)) cu

/-- C3: a response whose app- or page-usage header parses to the three
utilization percentages raises the cooldown deadline to
`max(previous, now + 300)` when the top percentage is ≥ 90 and to
`max(previous, now + 120)` when it is ≥ 80, and leaves it unchanged
otherwise; the cooldown never decreases under any header list; absent or
malformed telemetry leaves it unchanged (the function is total, so it never
fails the caller). -/
theorem c3_usage_cooldown :
    (∀ key c t cp, key ∈ usageKeys → ∀ s : Settings, ∀ now : ℤ,
      (update_usage_and_cooldown s [(key, HVal.jsonUsage c t cp)] now).cooldown_until =
        (if 90 ≤ max c (max t cp) then max s.cooldown_until (now + 300)
         else if 80 ≤ max c (max t cp) then max s.cooldown_until (now + 120)
         else s.cooldown_until))
    ∧ (∀ s : Settings, ∀ hdr now,
        s.cooldown_until ≤ (update_usage_and_cooldown s hdr now).cooldown_until)
    ∧ (∀ s : Settings, ∀ hdr now,
        (∀ k ∈ usageKeys, ∀ c t cp, alLookup hdr k ≠ some (.jsonUsage c t cp)) →
        (update_usage_and_cooldown s hdr now).cooldown_until = s.cooldown_until) := by
  refine ⟨?_, ?_, ?_⟩
  · intro key c t cp hk s now
    simp only [usageKeys, List.mem_cons, List.mem_singleton] at hk
    rcases hk with rfl | rfl | rfl | (rfl | h)
    · simp [update_usage_and_cooldown, usageKeys, alLookup, apply_usage]
    · simp [update_usage_and_cooldown, usageKeys, alLookup, apply_usage]
    · simp [update_usage_and_cooldown, usageKeys, alLookup, apply_usage]
    · simp [update_usage_and_cooldown, usageKeys, alLookup, apply_usage]
    · exact absurd h (List.not_mem_nil _)
  · intro s hdr now
    exact foldl_usage_mono hdr now usageKeys s.cooldown_until
  · intro s hdr now h
    exact foldl_usage_noop hdr now usageKeys h s.cooldown_until

/-- Witness for C3 at concrete inputs: app usage 95 % raises the cooldown
to now + 300 from a clear state. -/
theorem c3_usage_cooldown_witness :
    ("x-app-usage" ∈ usageKeys)
    ∧ (update_usage_and_cooldown s_base
        [("x-app-usage", HVal.jsonUsage 95 20 10)] 50).cooldown_until =
      (if 90 ≤ max 95 (max 20 10) then max s_base.cooldown_until (50 + 300)
       else if 80 ≤ max 95 (max 20 10) then max s_base.cooldown_until (50 + 120)
       else s_base.cooldown_until) :=
  ⟨by decide, c3_usage_cooldown.1 "x-app-usage" 95 20 10 (by decide) s_base 50⟩

/-- C5 counterexample: the claim's fourth resolution step (identity lookups
on loose environment credentials) does not exist in
`get_page_access_token`: with every earlier source empty or failing and a
loose credential whose identity lookup owns the requested id, the code
returns not-found while the claimed four-step process resolves it. -/
theorem c5_counterexample :
    (get_page_access_token [] [] 500 .nondict "123").1 = none
    ∧ resolve_spec [] [] 500 .nondict [(some "123", "tokL")] "123" = some "tokL"
    ∧ (get_page_access_token [] [] 500 .nondict "123").1 ≠
        resolve_spec [] [] 500 .nondict [(some "123", "tokL")] "123" := by decide

/-- C5 (amended): `get_page_access_token` tries exactly three sources in
priority order — environment map, persisted store, live `me/accounts`
discovery — returning the first hit and not-found when all three are
exhausted; in particular an id present in the environment map wins over the
store. -/
theorem c5_resolution_precedence :
    (∀ mp sp mas mad pid t, alLookup mp pid = some t →
      get_page_access_token mp sp mas mad pid = (some t, sp, false))
    ∧ (∀ mp sp mas mad pid t, alLookup mp pid = none → alLookup sp pid = some t →
      get_page_access_token mp sp mas mad pid = (some t, sp, false))
    ∧ (∀ mp sp pid entries, alLookup mp pid = none → alLookup sp pid = none →
      (get_page_access_token mp sp 200 (.dict entries) pid).1 =
        alLookup (build_found entries) pid)
    ∧ (∀ mp sp mas mad pid, alLookup mp pid = none → alLookup sp pid = none →
      (mas ≠ 200 ∨ mad = .nondict) →
      get_page_access_token mp sp mas mad pid = (none, sp, false)) := by
  refine ⟨?_, ?_, ?_, ?_⟩
  · intro mp sp mas mad pid t h
    simp [get_page_access_token, h]
  · intro mp sp mas mad pid t h1 h2
    simp [get_page_access_token, h1, h2]
  · intro mp sp pid entries h1 h2
    by_cases hbf : build_found entries = []
    · simp [get_page_access_token, h1, h2, hbf]
    · simp [get_page_access_token, h1, h2, hbf]
  · intro mp sp mas mad pid h1 h2 h3
    rcases h3 with h3 | h3
    · simp [get_page_access_token, h1, h2, h3]
    · subst h3
      simp only [get_page_access_token, h1, h2]
      split <;> rfl

/-- Witness for C5 at concrete inputs: an id present in both the
environment map and the store resolves to the environment map's value. -/
theorem c5_resolution_precedence_witness :
    alLookup [("1", "envTok")] "1" = some "envTok"
    ∧ get_page_access_token [("1", "envTok")] [("1", "storeTok")] 500 .nondict "1" =
        (some "envTok", [("1", "storeTok")], false) :=
  ⟨by decide, c5_resolution_precedence.1 [("1", "envTok")] [("1", "storeTok")]
    500 .nondict "1" "envTok" (by decide)⟩

/-- C6 counterexample: on successful discovery the source executes
`store["pages"] = found`, replacing the whole map: a previously stored pair
for a resource absent from the response does not survive, refuting the
claim that the store only grows. -/
theorem c6_counterexample :
    (get_page_access_token [] [("A", "ta")] 200
        (.dict [⟨some "B", some "tb"⟩]) "B").2.1 = [("B", "tb")]
    ∧ alLookup (get_page_access_token [] [("A", "ta")] 200
        (.dict [⟨some "B", some "tb"⟩]) "B").2.1 "A" = none
    ∧ alLookup [("A", "ta")] "A" = some "ta" := by decide

/-- C6 (amended): when live discovery succeeds with at least one valid
(resourceId, credential) pair, the store's `pages` map is replaced
wholesale by the response's pairs and persisted, so stored pairs for
resources absent from the response are dropped; when the response has no
valid pair the store is left unchanged and not persisted. -/
theorem c6_discovery_replaces_store (mp sp : List (String × String))
    (entries : List AccountEntry) (pid : String)
    (h1 : alLookup mp pid = none) (h2 : alLookup sp pid = none) :
    (build_found entries ≠ [] →
      (get_page_access_token mp sp 200 (.dict entries) pid).2.1 = build_found entries
      ∧ (get_page_access_token mp sp 200 (.dict entries) pid).2.2 = true)
    ∧ (build_found entries = [] →
      (get_page_access_token mp sp 200 (.dict entries) pid).2.1 = sp
      ∧ (get_page_access_token mp sp 200 (.dict entries) pid).2.2 = false)
    ∧ (get_page_access_token mp sp 200 (.dict entries) pid).1 =
        alLookup (build_found entries) pid := by
  refine ⟨?_, ?_, ?_⟩
  · intro hne
    simp [get_page_access_token, h1, h2, hne]
  · intro he
    simp [get_page_access_token, h1, h2, he]
  · by_cases hbf : build_found entries = []
    · simp [get_page_access_token, h1, h2, hbf]
    · simp [get_page_access_token, h1, h2, hbf]

/-- Witness for C6 at concrete inputs: discovery of `("B","tb")` replaces a
store that held only `("A","ta")`. -/
theorem c6_discovery_replaces_store_witness :
    alLookup ([] : List (String × String)) "B" = none
    ∧ alLookup [("A", "ta")] "B" = none
    ∧ build_found [⟨some "B", some "tb"⟩] ≠ []
    ∧ (get_page_access_token [] [("A", "ta")] 200
        (.dict [⟨some "B", some "tb"⟩]) "B").2.1 = build_found [⟨some "B", some "tb"⟩]
    ∧ (get_page_access_token [] [("A", "ta")] 200
        (.dict [⟨some "B", some "tb"⟩]) "B").2.2 = true := by
  have h := c6_discovery_replaces_store [] [("A", "ta")] [⟨some "B", some "tb"⟩] "B"
    (by decide) (by decide)
  exact ⟨by decide, by decide, by decide, (h.1 (by decide)).1, (h.1 (by decide)).2⟩

/-- C8: whenever the transferring phase of the large-media upload returns a
non-success status (≥ 400), the orchestrator returns the
`REELS_RUPLOAD_FAILED` failure carrying that status and the finish call is
never issued. -/
theorem c8_transfer_failure_skips_finish (s0 : Settings) (now0 : ℚ)
    (page_id : String) (startT finT permT : List TResult) (r : Resp)
    (hst : (graph_post s0 now0 (some (ctx_key_for_page page_id)) startT).status = 200)
    (hvid : reelVid (graph_post s0 now0 (some (ctx_key_for_page page_id)) startT).body ≠ none)
    (hr : 400 ≤ r.status) :
    (api_post_reel_core s0 now0 page_id startT (.resp r) finT permT).status = r.status
    ∧ (api_post_reel_core s0 now0 page_id startT (.resp r) finT permT).body =
        .ruploadFailed r.body
    ∧ (api_post_reel_core s0 now0 page_id startT (.resp r) finT permT).finishCalled = false := by
  rcases hv : reelVid (graph_post s0 now0 (some (ctx_key_for_page page_id)) startT).body with
    _ | vid
  · exact absurd hv hvid
  · refine ⟨?_, ?_, ?_⟩ <;> simp [api_post_reel_core, hst, hv, hr]

/-- Witness for C8 at concrete inputs: a start reply carrying a `video_id`
followed by a 500 from the binary transfer. -/
theorem c8_transfer_failure_skips_finish_witness :
    (graph_post s_base 1000 (some (ctx_key_for_page "7"))
        [.resp ⟨200, [], .json [("video_id", "9")]⟩]).status = 200
    ∧ reelVid (graph_post s_base 1000 (some (ctx_key_for_page "7"))
        [.resp ⟨200, [], .json [("video_id", "9")]⟩]).body ≠ none
    ∧ (400 : ℤ) ≤ (⟨500, [], .unparsable "err"⟩ : Resp).status
    ∧ (api_post_reel_core s_base 1000 "7" [.resp ⟨200, [], .json [("video_id", "9")]⟩]
        (.resp ⟨500, [], .unparsable "err"⟩) [] []).status =
      (⟨500, [], .unparsable "err"⟩ : Resp).status
    ∧ (api_post_reel_core s_base 1000 "7" [.resp ⟨200, [], .json [("video_id", "9")]⟩]
        (.resp ⟨500, [], .unparsable "err"⟩) [] []).finishCalled = false := by
  have h := c8_transfer_failure_skips_finish s_base 1000 "7"
    [.resp ⟨200, [], .json [("video_id", "9")]⟩] [] [] ⟨500, [], .unparsable "err"⟩
    (by with_unfolding_all rfl) (by with_unfolding_all decide) (by decide)
  exact ⟨by with_unfolding_all rfl, by with_unfolding_all decide, by decide, h.1, h.2.2⟩

theorem runList_chain_global (g : ℚ) (reqs : List (String × ℚ)) : ∀ s : Settings,
    s.throttle.global_min_interval = g →
    List.Chain' (fun a b => a + g ≤ b) (runList s reqs).2 := by
  induction reqs with
  | nil => intro s _; simp [runList]
  | cons q qs ih =>
    intro s hg
    have hrest := ih (wait_throttle s q.1 q.2).1
      (by rw [wait_throttle_throttle]; exact hg)
    rw [show (runList s (q :: qs)).2 =
      (wait_throttle s q.1 q.2).2 :: (runList (wait_throttle s q.1 q.2).1 qs).2 from rfl]
    rw [List.chain'_cons']
    refine ⟨?_, hrest⟩
    intro y hy
    rcases qs with _ | ⟨q2, qs2⟩
    · simp [runList] at hy
    · rw [show (runList (wait_throttle s q.1 q.2).1 (q2 :: qs2)).2 =
        (wait_throttle (wait_throttle s q.1 q.2).1 q2.1 q2.2).2 ::
          (runList (wait_throttle (wait_throttle s q.1 q.2).1 q2.1 q2.2).1 qs2).2
        from rfl] at hy
      simp only [List.head?_cons, Option.mem_def, Option.some.injEq] at hy
      subst hy
      have h1 := wait_throttle_ge_global (wait_throttle s q.1 q.2).1 q2.1 q2.2
      rw [wait_throttle_stamp_global, wait_throttle_throttle, hg] at h1
      exact h1

theorem per_resource_spacing (s : Settings) (k : String) (n1 n2 : ℚ)
    (mid : List (String × ℚ)) (hk : pyStarts k "page:" = true)
    (hmid : ∀ r ∈ mid, r.1 ≠ k) :
    (wait_throttle s k n1).2 + s.throttle.per_page_min_interval ≤
      (wait_throttle (runList (wait_throttle s k n1).1 mid).1 k n2).2 := by
  have hkg : k ≠ "global" := by
    intro h
    subst h
    exact absurd hk (by decide)
  have hpres : tsGet (runList (wait_throttle s k n1).1 mid).1.last_call_ts k =
      (wait_throttle s k n1).2 := by
    rw [runList_preserve mid (wait_throttle s k n1).1 k hmid hkg,
      wait_throttle_stamp_key]
  have hth : (runList (wait_throttle s k n1).1 mid).1.throttle = s.throttle := by
    rw [runList_throttle, wait_throttle_throttle]
  have hge := wait_throttle_ge_key (runList (wait_throttle s k n1).1 mid).1 k n2
  rw [hpres] at hge
  simpa [gapOf, hk, hth] using hge

/-- C4: the wait performed by `_wait_throttle(key)` equals
`max(0, lastCall[key] + gap − now, lastCall["global"] + globalGap − now)`
with the per-page gap exactly for `"page:"` contexts, and afterwards both
`lastCall[key]` and `lastCall["global"]` hold the issue instant;
consequently, over every sequence of throttled calls, consecutive issue
times of any context are at least `globalMinInterval` apart, and
consecutive issue times sharing a `"page:"` context (with no intervening
call of that context) are at least `perResourceMinInterval` apart. -/
theorem c4_throttle_spacing :
    (∀ s k now, (wait_throttle s k now).2 - now =
        max 0 (max (tsGet s.last_call_ts k + gapOf s k - now)
          (tsGet s.last_call_ts "global" + s.throttle.global_min_interval - now))
      ∧ tsGet (wait_throttle s k now).1.last_call_ts k = (wait_throttle s k now).2
      ∧ tsGet (wait_throttle s k now).1.last_call_ts "global" = (wait_throttle s k now).2)
    ∧ (∀ s reqs, List.Chain'
        (fun a b => a + s.throttle.global_min_interval ≤ b) (runList s reqs).2)
    ∧ (∀ s k n1 mid n2, pyStarts k "page:" = true → (∀ r ∈ mid, r.1 ≠ k) →
        (wait_throttle s k n1).2 + s.throttle.per_page_min_interval ≤
          (wait_throttle (runList (wait_throttle s k n1).1 mid).1 k n2).2) := by
  refine ⟨?_, ?_, ?_⟩
  · intro s k now
    refine ⟨?_, wait_throttle_stamp_key s k now, wait_throttle_stamp_global s k now⟩
    simp only [wait_throttle]
    exact add_sub_cancel_left _ _
  · intro s reqs
    exact runList_chain_global s.throttle.global_min_interval reqs s rfl
  · intro s k n1 mid n2 hk hmid
    exact per_resource_spacing s k n1 n2 mid hk hmid

/-- Witness for C4 at concrete inputs: two calls on context `"page:1"`
separated by a `"page:2"` call, from the startup state. -/
theorem c4_throttle_spacing_witness :
    pyStarts "page:1" "page:" = true
    ∧ (∀ r ∈ [(("page:2" : String), (0 : ℚ))], r.1 ≠ "page:1")
    ∧ (wait_throttle s_base "page:1" 0).2 + s_base.throttle.per_page_min_interval ≤
        (wait_throttle (runList (wait_throttle s_base "page:1" 0).1
          [("page:2", 0)]).1 "page:1" 0).2 :=
  ⟨by decide, by decide, c4_throttle_spacing.2.2 s_base "page:1" 0 [("page:2", 0)] 0
    (by decide) (by decide)⟩

theorem throttle_pair_cooldown (s : Settings) (now : ℚ) (ctx : Option String) :
    (throttle_pair s now ctx).1.cooldown_until = s.cooldown_until := by
  rcases ctx with _ | k
  · rfl
  · rfl

theorem throttle_pair_now_le (s : Settings) (now : ℚ) (ctx : Option String) :
    now ≤ (throttle_pair s now ctx).2 := by
  rcases ctx with _ | k
  · exact wait_throttle_now_le s "global" now
  · exact le_trans (wait_throttle_now_le s "global" now)
      (wait_throttle_now_le (wait_throttle s "global" now).1 k
        (wait_throttle s "global" now).2)

theorem graph_exec_head (s : Settings) (now : ℚ) (ctx : Option String)
    (transport : List TResult)
    (h : ¬ 0 < respect_cooldown s.cooldown_until (Int.floor now)) :
    (graph_exec s now ctx transport).trace.head? =
      some ⟨(throttle_pair s now ctx).2, (throttle_pair s now ctx).1.cooldown_until⟩ := by
  simp only [graph_exec, if_neg h]
  rcases hd : (do_attempt s now ctx (transport.getD 0 (.exn "connection error")) 0).2 with
    ⟨b, st, s', n'⟩ | ⟨s1, n1⟩ | ⟨m, s', n'⟩
  · rfl
  · simp only [run_second]
    rcases hd1 : (do_attempt s1 n1 ctx (transport.getD 1 (.exn "connection error")) 1).2 with
      ⟨b, st, s', n'⟩ | ⟨s2, n2⟩ | ⟨m, s', n'⟩
    · rfl
    · rfl
    · rfl
  · rfl

/-- C9 counterexample: a 429 with `Retry-After: 3` on the first attempt
extends the cooldown to now + 120 and then retries after 3 s, so the retry
exchange is an outgoing network call attempted while now < cooldownUntil —
refuting the claim that no call path ever does so. -/
theorem c9_counterexample :
    ∃ ev ∈ (graph_post s_base 1000 none
        [.resp ⟨429, [("Retry-After", .raw "3")], .json []⟩,
         .resp ⟨200, [], .json [("id", "1")]⟩]).trace,
      Int.floor ev.time < ev.cu_at := by
  refine ⟨⟨1003, 1120⟩, ?_, by decide⟩
  have ht : (graph_post s_base 1000 none
      [.resp ⟨429, [("Retry-After", .raw "3")], .json []⟩,
       .resp ⟨200, [], .json [("id", "1")]⟩]).trace =
      [⟨1000, 0⟩, ⟨1003, 1120⟩] := by with_unfolding_all rfl
  rw [ht]
  simp

/-- C9 (amended): the first network exchange of every executor call is never
attempted while now < cooldownUntil (the entry gate guarantees it); only the
single 429 short-wait retry — whose handler itself extends the cooldown
before sleeping — and the binary transfer phase, which performs no cooldown
check of its own, may issue an exchange during an active cooldown. -/
theorem c9_first_attempt_cooldown (s : Settings) (now : ℚ) (ctx : Option String)
    (transport : List TResult) (ev : AttemptEv)
    (h : (graph_exec s now ctx transport).trace.head? = some ev) :
    ev.cu_at ≤ Int.floor ev.time := by
  by_cases hrem : 0 < respect_cooldown s.cooldown_until (Int.floor now)
  · simp [graph_exec, hrem] at h
  · rw [graph_exec_head s now ctx transport hrem] at h
    have hev := (Option.some.inj h).symm
    subst hev
    have hcu := throttle_pair_cooldown s now ctx
    have hle := throttle_pair_now_le s now ctx
    have h2 : s.cooldown_until ≤ Int.floor now := by
      by_contra hlt
      push_neg at hlt
      refine hrem ?_
      simp only [respect_cooldown, if_pos hlt]
      omega
    simp only [hcu]
    exact le_trans h2 (Int.floor_le_floor hle)

/-- Witness for C9's amended theorem at concrete inputs: a plain successful
call from the startup state; its only exchange is at clock 1000 with
cooldown deadline 0. -/
theorem c9_first_attempt_cooldown_witness :
    (graph_exec s_base 1000 none [.resp ⟨200, [], .json []⟩]).trace.head? =
      some ⟨1000, 0⟩
    ∧ (⟨1000, 0⟩ : AttemptEv).cu_at ≤ Int.floor (⟨1000, 0⟩ : AttemptEv).time :=
  ⟨by with_unfolding_all rfl,
   c9_first_attempt_cooldown s_base 1000 none [.resp ⟨200, [], .json []⟩]
     ⟨1000, 0⟩ (by with_unfolding_all rfl)⟩

/-- C2 counterexample: with the `Retry-After` header absent the source reads
`"0"` and parses 0 — not the claimed default of 300 — so a first-attempt 429
without the header retries (two exchanges, here ending in a transport
failure) instead of returning the claimed `RATE_LIMIT` with hint 300 after a
single exchange. -/
theorem c2_counterexample :
    parse_retry_after none = 0
    ∧ parse_retry_after none ≠ 300
    ∧ (graph_post s_base 1000 none [.resp ⟨429, [], .json []⟩]).status = 500
    ∧ (graph_post s_base 1000 none [.resp ⟨429, [], .json []⟩]).trace.length = 2 := by
  refine ⟨rfl, by decide, ?_, ?_⟩ <;> with_unfolding_all rfl


theorem do_attempt_snd (s : Settings) (now : ℚ) (ctx : Option String)
    (tr : TResult) (attempt : ℕ) :
    (do_attempt s now ctx tr attempt).2 =
      attempt_step (throttle_pair s now ctx).1 (throttle_pair s now ctx).2 tr attempt := rfl

theorem attempt_step_429_small (s1 : Settings) (t : ℚ) (r : Resp) (attempt : ℕ)
    (ha : attempt = 0) (hr : r.status = 429)
    (h5 : parse_retry_after (alLookup r.headers "Retry-After") ≤ 5)
    (hnn : 0 ≤ parse_retry_after (alLookup r.headers "Retry-After")) :
    attempt_step s1 t (.resp r) attempt = .retryStep
      { update_usage_and_cooldown s1 r.headers (Int.floor t) with
        cooldown_until :=
          max (update_usage_and_cooldown s1 r.headers (Int.floor t)).cooldown_until
            (Int.floor t + max (parse_retry_after (alLookup r.headers "Retry-After")) 120) }
      (t + (((if parse_retry_after (alLookup r.headers "Retry-After") = 0 then 1
              else parse_retry_after (alLookup r.headers "Retry-After")) : ℤ) : ℚ)) := by
  simp only [attempt_step, hr, handle_429]
  split
  · rw [if_pos (show attempt = 0 ∧ parse_retry_after (alLookup r.headers "Retry-After") ≤ 5
      from ⟨ha, h5⟩),
      if_neg (show ¬ (if parse_retry_after (alLookup r.headers "Retry-After") = 0 then (1 : ℤ)
        else parse_retry_after (alLookup r.headers "Retry-After")) < 0 by split <;> omega)]
  · rename_i hfalse
    exact absurd trivial hfalse

theorem attempt_step_429_negative (s1 : Settings) (t : ℚ) (r : Resp) (attempt : ℕ)
    (ha : attempt = 0) (hr : r.status = 429)
    (hneg : parse_retry_after (alLookup r.headers "Retry-After") < 0) :
    attempt_step s1 t (.resp r) attempt =
      .raised "ValueError: sleep length must be non-negative"
        { update_usage_and_cooldown s1 r.headers (Int.floor t) with
          cooldown_until :=
            max (update_usage_and_cooldown s1 r.headers (Int.floor t)).cooldown_until
              (Int.floor t + max (parse_retry_after (alLookup r.headers "Retry-After")) 120) }
        t := by
  simp only [attempt_step, hr, handle_429]
  split
  · rw [if_pos (show attempt = 0 ∧ parse_retry_after (alLookup r.headers "Retry-After") ≤ 5
      from ⟨ha, by omega⟩),
      if_pos (show (if parse_retry_after (alLookup r.headers "Retry-After") = 0 then (1 : ℤ)
        else parse_retry_after (alLookup r.headers "Retry-After")) < 0 by split <;> omega)]
  · rename_i hfalse
    exact absurd trivial hfalse

theorem attempt_step_429_large (s1 : Settings) (t : ℚ) (r : Resp) (attempt : ℕ)
    (hr : r.status = 429)
    (h5 : ¬ parse_retry_after (alLookup r.headers "Retry-After") ≤ 5) :
    attempt_step s1 t (.resp r) attempt = .done
      (.rateLimit (parse_retry_after (alLookup r.headers "Retry-After"))) 429
      { update_usage_and_cooldown s1 r.headers (Int.floor t) with
        cooldown_until :=
          max (update_usage_and_cooldown s1 r.headers (Int.floor t)).cooldown_until
            (Int.floor t + max (parse_retry_after (alLookup r.headers "Retry-After")) 120) }
      t := by
  simp only [attempt_step, hr, handle_429]
  split
  · rw [if_neg (show ¬ (attempt = 0 ∧ parse_retry_after (alLookup r.headers "Retry-After") ≤ 5)
      from fun hc => h5 hc.2)]
  · rename_i hfalse
    exact absurd trivial hfalse

/-- C2 (amended): for every upstream 429, the retry-after hint parses to 0
when the header is absent or empty, to its integer value (possibly
negative) when numeric, and to 300 when present but unparsable; the
cooldown deadline is extended to `max(previous, now + max(hint, 120))` in
every case; on the first attempt, a hint in 0..5 makes the executor sleep
`hint` seconds (1 when the hint is 0) and retry the exchange exactly once,
returning the retry's outcome, while a negative hint makes `time.sleep`
raise an uncaught `ValueError` that escapes the executor (after the
cooldown extension); otherwise the structured `RATE_LIMIT` carrying the
hint is returned after the single exchange; no call performs more than two
exchanges. -/
theorem c2_429_retry_policy :
    (parse_retry_after none = 0
      ∧ parse_retry_after (some (.raw "")) = 0
      ∧ (∀ str n, str ≠ "" → pyInt? str = some n →
          parse_retry_after (some (.raw str)) = n)
      ∧ (∀ str, str ≠ "" → pyInt? str = none →
          parse_retry_after (some (.raw str)) = 300))
    ∧ (∀ hv attempt now cu,
        (handle_429 hv attempt now cu).2 =
          max cu (now + max (parse_retry_after hv) 120)
        ∧ (attempt = 0 → parse_retry_after hv ≤ 5 → 0 ≤ parse_retry_after hv →
            (handle_429 hv attempt now cu).1 = .retryAfterSleep
              (if parse_retry_after hv = 0 then 1 else parse_retry_after hv))
        ∧ (attempt = 0 → parse_retry_after hv < 0 →
            (handle_429 hv attempt now cu).1 = .sleepValueError)
        ∧ (¬ (attempt = 0 ∧ parse_retry_after hv ≤ 5) →
            (handle_429 hv attempt now cu).1 = .limit (parse_retry_after hv)))
    ∧ (∀ s now ctx transport,
        (graph_post s now ctx transport).trace.length ≤ 2)
    ∧ (∀ s : Settings, ∀ now : ℚ, ∀ ctx rest, ∀ r : Resp,
        ¬ Int.floor now < s.cooldown_until → r.status = 429 →
        5 < parse_retry_after (alLookup r.headers "Retry-After") →
        (graph_post s now ctx (.resp r :: rest)).body =
          .rateLimit (parse_retry_after (alLookup r.headers "Retry-After"))
        ∧ (graph_post s now ctx (.resp r :: rest)).status = 429
        ∧ (graph_post s now ctx (.resp r :: rest)).trace.length = 1)
    ∧ (∀ s : Settings, ∀ now : ℚ, ∀ ctx rest, ∀ r : Resp,
        ¬ Int.floor now < s.cooldown_until → r.status = 429 →
        parse_retry_after (alLookup r.headers "Retry-After") ≤ 5 →
        0 ≤ parse_retry_after (alLookup r.headers "Retry-After") →
        ∃ s1 n1, (do_attempt s now ctx (.resp r) 0).2 = .retryStep s1 n1
        ∧ n1 = (throttle_pair s now ctx).2 +
            (((if parse_retry_after (alLookup r.headers "Retry-After") = 0 then 1
               else parse_retry_after (alLookup r.headers "Retry-After")) : ℤ) : ℚ)
        ∧ graph_post s now ctx (.resp r :: rest) =
            run_second s1 n1 ctx (rest.getD 0 (.exn "connection error"))
              (do_attempt s now ctx (.resp r) 0).1)
    ∧ (∀ s : Settings, ∀ now : ℚ, ∀ ctx rest, ∀ r : Resp,
        ¬ Int.floor now < s.cooldown_until → r.status = 429 →
        parse_retry_after (alLookup r.headers "Retry-After") < 0 →
        (graph_post s now ctx (.resp r :: rest)).body =
          .uncaught "ValueError: sleep length must be non-negative"
        ∧ (graph_post s now ctx (.resp r :: rest)).trace.length = 1) := by
  refine ⟨⟨rfl, rfl, ?_, ?_⟩, ?_, ?_, ?_, ?_, ?_⟩
  · intro str n hne hp
    simp [parse_retry_after, hne, hp]
  · intro str hne hp
    simp [parse_retry_after, hne, hp]
  · intro hv attempt now cu
    refine ⟨?_, ?_, ?_, ?_⟩
    · simp only [handle_429]
      split
      · split <;> split <;> rfl
      · rfl
    · intro h0 h5 hnn
      simp only [handle_429]
      rw [if_pos (show attempt = 0 ∧ parse_retry_after hv ≤ 5 from ⟨h0, h5⟩),
        if_neg (show ¬ (if parse_retry_after hv = 0 then (1 : ℤ)
          else parse_retry_after hv) < 0 by split <;> omega)]
    · intro h0 hneg
      simp only [handle_429]
      rw [if_pos (show attempt = 0 ∧ parse_retry_after hv ≤ 5 from ⟨h0, by omega⟩),
        if_pos (show (if parse_retry_after hv = 0 then (1 : ℤ)
          else parse_retry_after hv) < 0 by split <;> omega)]
    · intro hnc
      simp only [handle_429]
      rw [if_neg hnc]
  · intro s now ctx transport
    simp only [graph_post, graph_exec]
    split
    · simp
    · rcases hd : (do_attempt s now ctx (transport.getD 0 (.exn "connection error")) 0).2 with
        ⟨b, st, s', n'⟩ | ⟨s1, n1⟩ | ⟨m, s', n'⟩
      · simp
      · simp only [run_second]
        rcases hd1 : (do_attempt s1 n1 ctx (transport.getD 1 (.exn "connection error")) 1).2 with
          ⟨b, st, s', n'⟩ | ⟨s2, n2⟩ | ⟨m, s', n'⟩
        · simp
        · simp
        · simp
      · simp
  · intro s now ctx rest r h0 hr h5
    have hrem : ¬ 0 < respect_cooldown s.cooldown_until (Int.floor now) := by
      simp [respect_cooldown, h0]
    have h5' : ¬ parse_retry_after (alLookup r.headers "Retry-After") ≤ 5 := not_le.mpr h5
    refine ⟨?_, ?_, ?_⟩ <;>
      · simp only [graph_post, graph_exec]
        rw [if_neg hrem]
        simp only [List.getD_cons_zero, do_attempt_snd]
        rw [attempt_step_429_large (throttle_pair s now ctx).1 (throttle_pair s now ctx).2
          r 0 hr h5']
        try rfl
  · intro s now ctx rest r h0 hr h5 hnn
    have hrem : ¬ 0 < respect_cooldown s.cooldown_until (Int.floor now) := by
      simp [respect_cooldown, h0]
    have hstep := attempt_step_429_small (throttle_pair s now ctx).1
      (throttle_pair s now ctx).2 r 0 rfl hr h5 hnn
    have hd : (do_attempt s now ctx (.resp r) 0).2 = .retryStep
        { update_usage_and_cooldown (throttle_pair s now ctx).1 r.headers
            (Int.floor (throttle_pair s now ctx).2) with
          cooldown_until :=
            max (update_usage_and_cooldown (throttle_pair s now ctx).1 r.headers
                (Int.floor (throttle_pair s now ctx).2)).cooldown_until
              (Int.floor (throttle_pair s now ctx).2 +
                max (parse_retry_after (alLookup r.headers "Retry-After")) 120) }
        ((throttle_pair s now ctx).2 +
          (((if parse_retry_after (alLookup r.headers "Retry-After") = 0 then 1
             else parse_retry_after (alLookup r.headers "Retry-After")) : ℤ) : ℚ)) := by
      rw [do_attempt_snd]
      exact hstep
    refine ⟨_, _, hd, rfl, ?_⟩
    simp only [graph_post, graph_exec]
    rw [if_neg hrem]
    simp only [List.getD_cons_zero, List.getD_cons_succ]
    rw [hd]
  · intro s now ctx rest r h0 hr hneg
    have hrem : ¬ 0 < respect_cooldown s.cooldown_until (Int.floor now) := by
      simp [respect_cooldown, h0]
    refine ⟨?_, ?_⟩ <;>
      · simp only [graph_post, graph_exec]
        rw [if_neg hrem]
        simp only [List.getD_cons_zero, do_attempt_snd]
        rw [attempt_step_429_negative (throttle_pair s now ctx).1 (throttle_pair s now ctx).2
          r 0 rfl hr hneg]
        try rfl

/-- Witness for C2 at concrete inputs: a first-attempt 429 carrying
`Retry-After: 120` returns the structured `RATE_LIMIT` with hint 120 after
a single exchange, and one carrying `Retry-After: -3` lets the sleep's
`ValueError` escape the executor after that single exchange. -/
theorem c2_429_retry_policy_witness :
    ¬ Int.floor (1000 : ℚ) < s_base.cooldown_until
    ∧ (⟨429, [("Retry-After", .raw "120")], .json []⟩ : Resp).status = 429
    ∧ 5 < parse_retry_after (alLookup
        (⟨429, [("Retry-After", .raw "120")], .json []⟩ : Resp).headers "Retry-After")
    ∧ (graph_post s_base 1000 none
        [.resp ⟨429, [("Retry-After", .raw "120")], .json []⟩]).body =
      .rateLimit (parse_retry_after (alLookup
        (⟨429, [("Retry-After", .raw "120")], .json []⟩ : Resp).headers "Retry-After"))
    ∧ (graph_post s_base 1000 none
        [.resp ⟨429, [("Retry-After", .raw "120")], .json []⟩]).status = 429
    ∧ (graph_post s_base 1000 none
        [.resp ⟨429, [("Retry-After", .raw "120")], .json []⟩]).trace.length = 1
    ∧ parse_retry_after (alLookup
        (⟨429, [("Retry-After", .raw "-3")], .json []⟩ : Resp).headers "Retry-After") < 0
    ∧ (graph_post s_base 1000 none
        [.resp ⟨429, [("Retry-After", .raw "-3")], .json []⟩]).body =
      .uncaught "ValueError: sleep length must be non-negative"
    ∧ (graph_post s_base 1000 none
        [.resp ⟨429, [("Retry-After", .raw "-3")], .json []⟩]).trace.length = 1 := by
  have h := c2_429_retry_policy.2.2.2.1 s_base 1000 none []
    ⟨429, [("Retry-After", .raw "120")], .json []⟩ (by decide) rfl (by decide)
  have hn := c2_429_retry_policy.2.2.2.2.2 s_base 1000 none []
    ⟨429, [("Retry-After", .raw "-3")], .json []⟩ (by decide) rfl (by decide)
  exact ⟨by decide, rfl, by decide, h.1, h.2.1, h.2.2, by decide, hn.1, hn.2⟩
